import Mathlib

/-!
Shallow embedding of the Pink Winners linear-programming interfaces
(`linear_programming_interface.py` and `lp_solver_cli.py`).  Python floats
are modelled as rationals.  Every transformation the interfaces perform on
a problem — normalization into the canonical solver-call form, translation
of the raw solver result, and JSON persistence of the entry-form state —
is embedded as a pure function below, and the stated properties of the
specification are settled against those functions.
-/

/-- A user-entered constraint: coefficient row, relational operator kept as
the raw string the surfaces read (`type_combos[i].get()` in the GUI, the
stripped prompt answer in the CLI — neither surface validates it), and the
scalar right-hand-side bound. -/
structure Constraint where
  coefficients : List ℚ
  op : String
  bound : ℚ
deriving DecidableEq

/-- A user-declared linear program.  The objective sense is kept as the raw
string stored in `objective_type` / `obj_type`: the code only ever compares
it against the maximization literal. -/
structure LinearProgram where
  objective_type : String
  objective : List ℚ
  constraints : List Constraint
deriving DecidableEq

/-- Element-wise negation, `[-x for x in l]`. -/
def negListQ (l : List ℚ) : List ℚ := l.map (fun x => -x)

/-- The four arrays grown by the constraint loop of
`LinearProgrammingInterface.solve_problem` (lines 233-254) and
`LPSolverCLI.input_problem` (lines 44-67). -/
structure BuildState where
  A_ub : List (List ℚ)
  b_ub : List ℚ
  A_eq : List (List ℚ)
  b_eq : List ℚ
deriving DecidableEq

/-- The arrays before the first loop iteration: all empty. -/
def emptyBuild : BuildState := ⟨[], [], [], []⟩

/-- One iteration of the constraint loop: `<=` rows are appended unchanged
to `A_ub`/`b_ub`, `>=` rows are appended negated, every other operator
string falls to the `else` branch and is appended unchanged to
`A_eq`/`b_eq`. -/
def route_constraint (st : BuildState) (con : Constraint) : BuildState :=
  if con.op = "<=" then
    { st with A_ub := st.A_ub ++ [con.coefficients], b_ub := st.b_ub ++ [con.bound] }
  else if con.op = ">=" then
    { st with A_ub := st.A_ub ++ [negListQ con.coefficients], b_ub := st.b_ub ++ [-con.bound] }
  else
    { st with A_eq := st.A_eq ++ [con.coefficients], b_eq := st.b_eq ++ [con.bound] }

/-- The whole constraint loop. -/
def build_constraints (cs : List Constraint) : BuildState :=
  cs.foldl route_constraint emptyBuild

/-- `np.array(xs) if xs else None`: an empty list becomes `None`, anything
else is passed through. -/
def toOpt {α : Type} (l : List α) : Option (List α) := if l.isEmpty then none else some l

/-- The argument record of the `scipy.optimize.linprog` call: canonical
minimization vector, the four optional constraint arrays, and the
per-variable `(0, None)` bounds. -/
structure SolverCall where
  c : List ℚ
  A_ub : Option (List (List ℚ))
  b_ub : Option (List ℚ)
  A_eq : Option (List (List ℚ))
  b_eq : Option (List ℚ)
  bounds : List (ℚ × Option ℚ)
deriving DecidableEq

/-- `LinearProgrammingInterface.solve_problem` (lines 221-264): negate the
objective when maximizing, route every constraint, turn empty arrays into
`None`, fix bounds at `(0, None)` for each variable, and hand everything to
the solver.  No dimension check of any kind appears in the source: the
function is total and always produces a solver invocation. -/
def solve_problem (p : LinearProgram) : SolverCall :=
  let c := if p.objective_type = "maximize" then negListQ p.objective else p.objective
  let st := build_constraints p.constraints
  { c := c
    A_ub := toOpt st.A_ub
    b_ub := toOpt st.b_ub
    A_eq := toOpt st.A_eq
    b_eq := toOpt st.b_eq
    bounds := List.replicate c.length ((0 : ℚ), none) }

/-- The structured result returned by the external solver.  The Python
attribute holding the minimized objective value is `result.fun`, a reserved
word here, so it is embedded as `fun_val`. -/
structure SolverResult where
  success : Bool
  message : String
  x : List ℚ
  fun_val : ℚ
  nit : Nat
deriving DecidableEq

/-- What the display layer reports to the user: success flag, the status
message, and — only on success — the variable assignment and the
sense-corrected objective value. -/
structure SolveOutcome where
  success : Bool
  message : String
  solution : Option (List ℚ)
  optimal_value : Option ℚ
deriving DecidableEq

/-- `LinearProgrammingInterface.display_results` (lines 272-310): on
success, report the assignment unchanged and negate the raw minimized
value back when the original sense was maximization; on failure, relay the
status message and report no value and no assignment. -/
def display_results (objective_type : String) (result : SolverResult) : SolveOutcome :=
  if result.success then
    { success := true
      message := result.message
      solution := some result.x
      optimal_value := some (if objective_type = "maximize" then -result.fun_val else result.fun_val) }
  else
    { success := false
      message := result.message
      solution := none
      optimal_value := none }

/-- One constraint row of the GUI entry form: coefficient entry texts, the
operator combo text, and the bound entry text.  This is also the shape of
one element of the persisted `constraints` array (JSON keys `coeffs`,
`type`, `bound`; `type` is reserved here, embedded as `ctype`). -/
structure EntryRow where
  coeffs : List String
  ctype : String
  bound : String
deriving DecidableEq

/-- The part of the GUI widget state that persistence reads and writes:
the two dimension spinboxes, the sense radio buttons, the objective entry
texts, and the constraint rows. -/
structure ProblemState where
  num_variables : Nat
  num_constraints : Nat
  objective_type : String
  obj_entries : List String
  rows : List EntryRow
deriving DecidableEq

/-- The persisted JSON document (`problem_data` in the source): dimensions,
sense string, objective coefficient strings, and the saved constraints. -/
structure ProblemData where
  num_variables : Nat
  num_constraints : Nat
  objective_type : String
  objective_coeffs : List String
  constraints : List EntryRow
deriving DecidableEq

/-- `LinearProgrammingInterface.save_problem` (lines 379-399): copy the
dimensions, the sense, every objective entry text, and the first
`num_constraints` constraint rows (the source indexes
`constraint_entries[i]` for `i in range(num_constraints)`; `take` models
that in-range indexing, and the GUI maintains
`rows.length = num_constraints`). -/
def save_problem (s : ProblemState) : ProblemData :=
  { num_variables := s.num_variables
    num_constraints := s.num_constraints
    objective_type := s.objective_type
    objective_coeffs := s.obj_entries
    constraints := s.rows.take s.num_constraints }

/-- The default constraint row created by `update_problem_size`
(lines 196-219): every coefficient entry holds `1`, the operator combo is
set to `<=`, the bound entry holds `0`. -/
def default_row (nv : Nat) : EntryRow :=
  { coeffs := List.replicate nv ("1"), ctype := "<=", bound := "0" }

/-- The Python pattern `for i, v in enumerate(new): base[i] = v`:
overwrite a prefix of `base` with `new`.  When `new` is longer than `base`
the loop raises `IndexError` after having already overwritten all of
`base`; the error value is the list state at that point. -/
def fill_list {α : Type} (base new : List α) : Except (List α) (List α) :=
  if new.length ≤ base.length then Except.ok (new ++ base.drop new.length)
  else Except.error (new.take base.length)

/-- Loading one saved constraint into one freshly created entry row
(lines 433-439): overwrite the coefficient entries one by one, then set
the operator combo, then the bound entry.  An index error while copying
coefficients leaves the row with only a prefix written and the operator
and bound still at their defaults. -/
def load_row (row : EntryRow) (c : EntryRow) : Except EntryRow EntryRow :=
  match fill_list row.coeffs c.coeffs with
  | Except.error pc => Except.error { row with coeffs := pc }
  | Except.ok newc => Except.ok { coeffs := newc, ctype := c.ctype, bound := c.bound }

/-- The loop `for i, constraint in enumerate(data.constraints)`: row `i` of
the freshly created entry rows is overwritten from saved entry `i`; an
entry beyond the created rows raises `IndexError`.  The error value is the
row-list state at the exception. -/
def load_rows (rows : List EntryRow) (cs : List EntryRow) : Except (List EntryRow) (List EntryRow) :=
  match cs, rows with
  | [], _ => Except.ok rows
  | _ :: _, [] => Except.error []
  | c :: rest, r :: rtail =>
    match load_row r c with
    | Except.error re => Except.error (re :: rtail)
    | Except.ok rok =>
      match load_rows rtail rest with
      | Except.error ts => Except.error (rok :: ts)
      | Except.ok ts => Except.ok (rok :: ts)

/-- `LinearProgrammingInterface.load_problem` (lines 406-444) as a state
transition.  Inside a single `try` the method first installs the loaded
dimensions and sense and rebuilds default entry widgets
(`update_problem_size`), then overwrites the objective entries, then the
constraint rows.  Success returns the fully loaded state.  An `IndexError`
partway is caught by the `except` handler, which only shows a message
box: the mutations made before the exception persist, so the error value
carries the state as it stands at the exception.  The prior state is
discarded entirely because every field is overwritten before the first
possible index error. -/
def load_problem (_s : ProblemState) (d : ProblemData) : Except ProblemState ProblemState :=
  let s1 : ProblemState :=
    { num_variables := d.num_variables
      num_constraints := d.num_constraints
      objective_type := d.objective_type
      obj_entries := List.replicate d.num_variables ("1")
      rows := List.replicate d.num_constraints (default_row d.num_variables) }
  match fill_list s1.obj_entries d.objective_coeffs with
  | Except.error po => Except.error { s1 with obj_entries := po }
  | Except.ok obj =>
    match load_rows s1.rows d.constraints with
    | Except.error rs => Except.error { s1 with obj_entries := obj, rows := rs }
    | Except.ok rs => Except.ok { s1 with obj_entries := obj, rows := rs }

/-- Componentwise concatenation of two build states; used to factor the
constraint loop into per-constraint contributions. -/
def BuildState.append (a b : BuildState) : BuildState :=
  ⟨a.A_ub ++ b.A_ub, a.b_ub ++ b.b_ub, a.A_eq ++ b.A_eq, a.b_eq ++ b.b_eq⟩

/-- A program whose single constraint row is longer than its objective:
two objective coefficients but three constraint coefficients. -/
def mismatched_program : LinearProgram :=
  { objective_type := "maximize"
    objective := [1, 2]
    constraints := [ { coefficients := [1, 2, 3], op := "<=", bound := 5 } ] }

/-- A concrete minimization program (sense comparison input). -/
def program_min_ex : LinearProgram :=
  { objective_type := "minimize", objective := [5, 3], constraints := [] }

/-- A concrete maximization program (sense comparison input). -/
def program_max_ex : LinearProgram :=
  { objective_type := "maximize", objective := [3, 2], constraints := [] }

/-- A concrete `>=` constraint. -/
def geq_con_ex : Constraint := { coefficients := [2, 1], op := ">=", bound := 10 }

/-- A concrete `<=` constraint. -/
def leq_con_ex : Constraint := { coefficients := [2, 1], op := "<=", bound := 100 }

/-- A concrete `=` constraint. -/
def eq_con_ex : Constraint := { coefficients := [1, 1, 1], op := "=", bound := 100 }

/-- A constraint carrying an operator string that is none of the three
documented values. -/
def weird_con_ex : Constraint := { coefficients := [4, 7], op := "??", bound := 9 }

/-- A program mixing both inequality kinds and an equality. -/
def mixed_program_ex : LinearProgram :=
  { objective_type := "minimize"
    objective := [2, 3]
    constraints :=
      [ { coefficients := [1, 1], op := ">=", bound := 100 }
      , { coefficients := [2, 1], op := "<=", bound := 200 }
      , { coefficients := [1, 0], op := "=", bound := 40 } ] }

/-- A program whose only constraint is an equality. -/
def eq_only_program_ex : LinearProgram :=
  { objective_type := "minimize", objective := [1, 1, 1], constraints := [eq_con_ex] }

/-- A successful raw solver result whose minimized value is `-410`. -/
def result_success_ex : SolverResult :=
  { success := true, message := "Optimization terminated successfully.", x := [30, 50], fun_val := -410, nit := 7 }

/-- A failed raw solver result. -/
def result_failure_ex : SolverResult :=
  { success := false, message := "The problem is infeasible.", x := [], fun_val := 0, nit := 0 }

/-- A concrete well-formed entry-form state. -/
def state_ex : ProblemState :=
  { num_variables := 2
    num_constraints := 2
    objective_type := "maximize"
    obj_entries := ["3", "2"]
    rows :=
      [ { coeffs := ["2", "1"], ctype := "<=", bound := "100" }
      , { coeffs := ["1", "1"], ctype := "<=", bound := "80" } ] }

/-- The entry-form state before a load in the examples below. -/
def state0_ex : ProblemState :=
  { num_variables := 2
    num_constraints := 0
    objective_type := "maximize"
    obj_entries := ["3", "2"]
    rows := [] }

/-- A persisted document with inconsistent dimensions: it declares one
variable but carries two objective coefficient strings. -/
def bad_data : ProblemData :=
  { num_variables := 1
    num_constraints := 0
    objective_type := "minimize"
    objective_coeffs := ["7", "8"]
    constraints := [] }

theorem BuildState.append_empty (a : BuildState) : a.append emptyBuild = a := by
  cases a
  simp [BuildState.append, emptyBuild]

theorem route_constraint_append (a st : BuildState) (con : Constraint) :
    route_constraint (a.append st) con = a.append (route_constraint st con) := by
  cases a
  cases st
  unfold route_constraint BuildState.append
  split_ifs <;> simp

theorem foldl_route_append (cs : List Constraint) (a st : BuildState) :
    cs.foldl route_constraint (a.append st) = a.append (cs.foldl route_constraint st) := by
  induction cs generalizing st with
  | nil => rfl
  | cons c rest ih => simp only [List.foldl_cons, route_constraint_append, ih]

theorem build_constraints_cons (c : Constraint) (cs : List Constraint) :
    build_constraints (c :: cs) = (route_constraint emptyBuild c).append (build_constraints cs) := by
  unfold build_constraints
  rw [List.foldl_cons]
  calc (cs.foldl route_constraint (route_constraint emptyBuild c))
      = cs.foldl route_constraint ((route_constraint emptyBuild c).append emptyBuild) := by
        rw [BuildState.append_empty]
    _ = (route_constraint emptyBuild c).append (cs.foldl route_constraint emptyBuild) :=
        foldl_route_append ..

theorem build_constraints_A_ub (cs : List Constraint) :
    (build_constraints cs).A_ub =
      cs.filterMap (fun c =>
        if c.op = "<=" then some c.coefficients
        else if c.op = ">=" then some (negListQ c.coefficients) else none) := by
  induction cs with
  | nil => rfl
  | cons c rest ih =>
    rw [build_constraints_cons, List.filterMap_cons]
    unfold route_constraint
    split_ifs <;> simp [BuildState.append, emptyBuild, ih]

theorem build_constraints_b_ub (cs : List Constraint) :
    (build_constraints cs).b_ub =
      cs.filterMap (fun c =>
        if c.op = "<=" then some c.bound
        else if c.op = ">=" then some (-c.bound) else none) := by
  induction cs with
  | nil => rfl
  | cons c rest ih =>
    rw [build_constraints_cons, List.filterMap_cons]
    unfold route_constraint
    split_ifs <;> simp [BuildState.append, emptyBuild, ih]

theorem build_constraints_A_eq (cs : List Constraint) :
    (build_constraints cs).A_eq =
      cs.filterMap (fun c =>
        if c.op = "<=" then none
        else if c.op = ">=" then none else some c.coefficients) := by
  induction cs with
  | nil => rfl
  | cons c rest ih =>
    rw [build_constraints_cons, List.filterMap_cons]
    unfold route_constraint
    split_ifs <;> simp [BuildState.append, emptyBuild, ih]

theorem build_constraints_b_eq (cs : List Constraint) :
    (build_constraints cs).b_eq =
      cs.filterMap (fun c =>
        if c.op = "<=" then none
        else if c.op = ">=" then none else some c.bound) := by
  induction cs with
  | nil => rfl
  | cons c rest ih =>
    rw [build_constraints_cons, List.filterMap_cons]
    unfold route_constraint
    split_ifs <;> simp [BuildState.append, emptyBuild, ih]

theorem toOpt_eq_none {α : Type} (l : List α) : toOpt l = none ↔ l = [] := by
  cases l <;> simp [toOpt]

/-- C3: the canonical minimization vector `c` equals the objective
coefficients exactly when the declared sense is minimization, and equals
their element-wise negation when the declared sense is maximization. -/
theorem solve_problem_c_sense (p : LinearProgram) :
    (p.objective_type = "minimize" → (solve_problem p).c = p.objective) ∧
    (p.objective_type = "maximize" → (solve_problem p).c = negListQ p.objective) := by
  constructor <;> intro h <;> simp [solve_problem, h]

/-- Witness for C3 at concrete programs: `Minimize [5, 3]` keeps its
objective, `Maximize [3, 2]` gets `[-3, -2]`. -/
theorem solve_problem_c_sense_witness :
    (solve_problem program_min_ex).c = [(5 : ℚ), 3] ∧
    (solve_problem program_max_ex).c = [(-3 : ℚ), -2] := by
  constructor
  · exact ((solve_problem_c_sense program_min_ex).1 rfl).trans (by decide)
  · exact ((solve_problem_c_sense program_max_ex).2 rfl).trans (by decide)

/-- C4: appending a `GreaterOrEqual` constraint with coefficients `a` and
bound `b` to a program extends `A_ub` by the element-wise negation of `a`
and `b_ub` by `-b`, and touches nothing else. -/
theorem build_constraints_geq_flip (pre : List Constraint) (con : Constraint)
    (h : con.op = ">=") :
    build_constraints (pre ++ [con]) =
      { build_constraints pre with
        A_ub := (build_constraints pre).A_ub ++ [negListQ con.coefficients]
        b_ub := (build_constraints pre).b_ub ++ [-con.bound] } := by
  unfold build_constraints
  rw [List.foldl_append]
  simp [route_constraint, h]

/-- Witness for C4: routing `[2, 1] >= 10` alone produces the single `A_ub`
row `[-2, -1]` with `b_ub` entry `-10`. -/
theorem build_constraints_geq_flip_witness :
    build_constraints [geq_con_ex] = ⟨[[-2, -1]], [-10], [], []⟩ :=
  (build_constraints_geq_flip [] geq_con_ex rfl).trans (by decide)

/-- C5: appending a `LessOrEqual` constraint extends `A_ub`/`b_ub` with its
coefficients and bound unchanged, and appending an `Equal` constraint
extends `A_eq`/`b_eq` with its coefficients and bound unchanged. -/
theorem build_constraints_leq_eq_unchanged (pre : List Constraint) (con : Constraint) :
    (con.op = "<=" →
      build_constraints (pre ++ [con]) =
        { build_constraints pre with
          A_ub := (build_constraints pre).A_ub ++ [con.coefficients]
          b_ub := (build_constraints pre).b_ub ++ [con.bound] }) ∧
    (con.op = "=" →
      build_constraints (pre ++ [con]) =
        { build_constraints pre with
          A_eq := (build_constraints pre).A_eq ++ [con.coefficients]
          b_eq := (build_constraints pre).b_eq ++ [con.bound] }) := by
  constructor <;> intro h <;>
    (unfold build_constraints; rw [List.foldl_append]; simp [route_constraint, h])

/-- Witness for C5: `[2, 1] <= 100` lands unchanged in `A_ub`/`b_ub`, and
`[1, 1, 1] = 100` lands unchanged in `A_eq`/`b_eq`. -/
theorem build_constraints_leq_eq_unchanged_witness :
    build_constraints [leq_con_ex] = ⟨[[2, 1]], [100], [], []⟩ ∧
    build_constraints [eq_con_ex] = ⟨[], [], [[1, 1, 1]], [100]⟩ := by
  constructor
  · exact ((build_constraints_leq_eq_unchanged [] leq_con_ex).1 rfl).trans (by decide)
  · exact ((build_constraints_leq_eq_unchanged [] eq_con_ex).2 rfl).trans (by decide)

/-- C10: a constraint whose operator string is neither of the two
inequality literals — whatever it is — is routed with coefficients and
bound unchanged into `A_eq`/`b_eq`, exactly as if its operator were the
equality literal; no operator value is rejected (the routing is total). -/
theorem build_constraints_unknown_op_as_equal (pre : List Constraint) (con : Constraint)
    (h1 : con.op ≠ "<=") (h2 : con.op ≠ ">=") :
    build_constraints (pre ++ [con]) =
      { build_constraints pre with
        A_eq := (build_constraints pre).A_eq ++ [con.coefficients]
        b_eq := (build_constraints pre).b_eq ++ [con.bound] } ∧
    build_constraints (pre ++ [con]) = build_constraints (pre ++ [{ con with op := "=" }]) := by
  constructor
  · unfold build_constraints
    rw [List.foldl_append]
    simp [route_constraint, h1, h2]
  · unfold build_constraints
    rw [List.foldl_append, List.foldl_append]
    simp [route_constraint, h1, h2]

/-- Witness for C10: the undocumented operator string of `weird_con_ex`
routes its row into the equality arrays, the same build state the
explicit-equality version produces. -/
theorem build_constraints_unknown_op_as_equal_witness :
    build_constraints [weird_con_ex] = ⟨[], [], [[4, 7]], [9]⟩ ∧
    build_constraints [weird_con_ex] = build_constraints [{ weird_con_ex with op := "=" }] := by
  have h := build_constraints_unknown_op_as_equal [] weird_con_ex (by decide) (by decide)
  exact ⟨h.1.trans (by decide), h.2⟩

/-- C6: on a successful solver result the displayed assignment is the raw
assignment unchanged, and the displayed objective value is the negated raw
minimized value when the declared sense is maximization and the raw value
itself when it is minimization. -/
theorem display_results_success_translation (objective_type : String) (result : SolverResult)
    (h : result.success = true) :
    (display_results objective_type result).solution = some result.x ∧
    (objective_type = "maximize" →
      (display_results objective_type result).optimal_value = some (-result.fun_val)) ∧
    (objective_type = "minimize" →
      (display_results objective_type result).optimal_value = some result.fun_val) := by
  refine ⟨?_, ?_, ?_⟩
  · simp [display_results, h]
  · intro hs
    simp [display_results, h, hs]
  · intro hs
    simp [display_results, h, hs]

/-- Witness for C6: sense maximization with raw minimized value `-410`
reports objective `410`, and the assignment is copied unchanged. -/
theorem display_results_success_translation_witness :
    (display_results ("maximize") result_success_ex).solution = some [(30 : ℚ), 50] ∧
    (display_results ("maximize") result_success_ex).optimal_value = some (410 : ℚ) := by
  have h := display_results_success_translation ("maximize") result_success_ex rfl
  refine ⟨h.1.trans (by decide), (h.2.1 rfl).trans (by decide)⟩

/-- C7: on an unsuccessful solver result the outcome has the success flag
false, carries the status message verbatim, reports no assignment and no
objective value, and in particular the absent objective value is not the
value zero. -/
theorem display_results_failure_translation (objective_type : String) (result : SolverResult)
    (h : result.success = false) :
    (display_results objective_type result).success = false ∧
    (display_results objective_type result).message = result.message ∧
    (display_results objective_type result).solution = none ∧
    (display_results objective_type result).optimal_value = none ∧
    (display_results objective_type result).optimal_value ≠ some 0 := by
  simp [display_results, h]

/-- Witness for C7 at a concrete infeasible result. -/
theorem display_results_failure_translation_witness :
    (display_results ("minimize") result_failure_ex).success = false ∧
    (display_results ("minimize") result_failure_ex).message = "The problem is infeasible." ∧
    (display_results ("minimize") result_failure_ex).solution = none ∧
    (display_results ("minimize") result_failure_ex).optimal_value = none ∧
    (display_results ("minimize") result_failure_ex).optimal_value ≠ some 0 := by
  have h := display_results_failure_translation ("minimize") result_failure_ex rfl
  exact ⟨h.1, h.2.1.trans (by decide), h.2.2.1, h.2.2.2.1, h.2.2.2.2⟩

theorem route_if_inequality_none_iff {α : Type} (c : Constraint) (x y : α) :
    ((if c.op = "<=" then some x else if c.op = ">=" then some y else none) = none) ↔
      (c.op ≠ "<=" ∧ c.op ≠ ">=") := by
  split_ifs <;> simp_all

theorem route_if_equality_none_iff {α : Type} (c : Constraint) (x : α) :
    ((if c.op = "<=" then none else if c.op = ">=" then none else some x) = none) ↔
      (c.op = "<=" ∨ c.op = ">=") := by
  split_ifs <;> simp_all

theorem A_ub_row_lengths (cs : List Constraint) :
    (build_constraints cs).A_ub.map List.length =
      (cs.filter (fun c => c.op == "<=" || c.op == ">=")).map (fun c => c.coefficients.length) := by
  rw [build_constraints_A_ub]
  induction cs with
  | nil => rfl
  | cons c rest ih =>
    rw [List.filterMap_cons, List.filter_cons]
    by_cases h1 : c.op = "<="
    · simpa [h1, negListQ] using ih
    · by_cases h2 : c.op = ">="
      · simpa [h1, h2, negListQ] using ih
      · simpa [h1, h2, negListQ] using ih

theorem A_eq_row_lengths (cs : List Constraint) :
    (build_constraints cs).A_eq.map List.length =
      (cs.filter (fun c => !(c.op == "<=" || c.op == ">="))).map (fun c => c.coefficients.length) := by
  rw [build_constraints_A_eq]
  induction cs with
  | nil => rfl
  | cons c rest ih =>
    rw [List.filterMap_cons, List.filter_cons]
    by_cases h1 : c.op = "<="
    · simpa [h1] using ih
    · by_cases h2 : c.op = ">="
      · simpa [h1, h2] using ih
      · simpa [h1, h2] using ih

/-- C1 counterexample: a program whose objective has two coefficients while
its single constraint row has three is nonetheless normalized into a full
solver invocation — the call record is built, the three-coefficient row is
passed to the solver unpadded and untruncated, and no `ShapeMismatch`
error exists anywhere on the path (the normalization is a total function
with no error outcome). -/
theorem solve_problem_mismatch_reaches_solver_cex :
    mismatched_program.objective.length = 2 ∧
    mismatched_program.constraints.map (fun c => c.coefficients.length) = [3] ∧
    solve_problem mismatched_program =
      { c := [-1, -2]
        A_ub := some [[1, 2, 3]]
        b_ub := some [5]
        A_eq := none
        b_eq := none
        bounds := [((0 : ℚ), none), (0, none)] } := by
  refine ⟨rfl, rfl, ?_⟩
  decide

/-- C1 amended: the solve operation performs no dimension check at all.
For every program — mismatched or not — it produces a solver invocation:
the canonical vector keeps the objective length, and every emitted
`A_ub`/`A_eq` row keeps exactly the length of the constraint row it came
from (rows are routed per operator, never padded or truncated), with the
built arrays handed to the solver verbatim through the optional-array
wrapping. -/
theorem solve_problem_no_shape_check (p : LinearProgram) :
    (solve_problem p).c.length = p.objective.length ∧
    ((build_constraints p.constraints).A_ub.map List.length =
      (p.constraints.filter (fun c => c.op == "<=" || c.op == ">=")).map
        (fun c => c.coefficients.length)) ∧
    ((build_constraints p.constraints).A_eq.map List.length =
      (p.constraints.filter (fun c => !(c.op == "<=" || c.op == ">="))).map
        (fun c => c.coefficients.length)) ∧
    (solve_problem p).A_ub = toOpt (build_constraints p.constraints).A_ub ∧
    (solve_problem p).A_eq = toOpt (build_constraints p.constraints).A_eq := by
  refine ⟨?_, A_ub_row_lengths p.constraints, A_eq_row_lengths p.constraints, rfl, rfl⟩
  by_cases h : p.objective_type = "maximize" <;> simp [solve_problem, h, negListQ]

/-- C9: under the documented operator alphabet, the solver receives
`A_ub`/`b_ub` as `None` exactly when the program has no `<=` and no `>=`
constraint, and `A_eq`/`b_eq` as `None` exactly when it has no `=`
constraint. -/
theorem solve_problem_optional_arrays (p : LinearProgram)
    (hops : ∀ con ∈ p.constraints, con.op = "<=" ∨ con.op = ">=" ∨ con.op = "=") :
    (((solve_problem p).A_ub = none ∧ (solve_problem p).b_ub = none) ↔
      (∀ con ∈ p.constraints, con.op ≠ "<=" ∧ con.op ≠ ">=")) ∧
    (((solve_problem p).A_eq = none ∧ (solve_problem p).b_eq = none) ↔
      (∀ con ∈ p.constraints, con.op ≠ "=")) := by
  have eub : (solve_problem p).A_ub = toOpt (build_constraints p.constraints).A_ub := rfl
  have ebub : (solve_problem p).b_ub = toOpt (build_constraints p.constraints).b_ub := rfl
  have eeq : (solve_problem p).A_eq = toOpt (build_constraints p.constraints).A_eq := rfl
  have ebeq : (solve_problem p).b_eq = toOpt (build_constraints p.constraints).b_eq := rfl
  rw [eub, ebub, eeq, ebeq, toOpt_eq_none, toOpt_eq_none, toOpt_eq_none, toOpt_eq_none,
    build_constraints_A_ub, build_constraints_b_ub, build_constraints_A_eq,
    build_constraints_b_eq, List.filterMap_eq_nil_iff, List.filterMap_eq_nil_iff,
    List.filterMap_eq_nil_iff, List.filterMap_eq_nil_iff]
  constructor
  · constructor
    · rintro ⟨ha, _⟩ con hc
      exact (route_if_inequality_none_iff con con.coefficients (negListQ con.coefficients)).mp
        (ha con hc)
    · intro h
      refine ⟨fun con hc => ?_, fun con hc => ?_⟩
      · exact (route_if_inequality_none_iff con con.coefficients (negListQ con.coefficients)).mpr
          (h con hc)
      · exact (route_if_inequality_none_iff con con.bound (-con.bound)).mpr (h con hc)
  · constructor
    · rintro ⟨ha, _⟩ con hc heq
      have hor := (route_if_equality_none_iff con con.coefficients).mp (ha con hc)
      rw [heq] at hor
      rcases hor with h1 | h1 <;> exact absurd h1 (by decide)
    · intro h
      refine ⟨fun con hc => ?_, fun con hc => ?_⟩
      · refine (route_if_equality_none_iff con con.coefficients).mpr ?_
        rcases hops con hc with h1 | h1 | h1
        · exact Or.inl h1
        · exact Or.inr h1
        · exact absurd h1 (h con hc)
      · refine (route_if_equality_none_iff con con.bound).mpr ?_
        rcases hops con hc with h1 | h1 | h1
        · exact Or.inl h1
        · exact Or.inr h1
        · exact absurd h1 (h con hc)

/-- Witness for C9: the program whose only constraint is an equality gets
`A_ub = None` and `b_ub = None`, while its equality arrays are present. -/
theorem solve_problem_optional_arrays_witness :
    (solve_problem eq_only_program_ex).A_ub = none ∧
    (solve_problem eq_only_program_ex).b_ub = none ∧
    ¬((solve_problem eq_only_program_ex).A_eq = none ∧
      (solve_problem eq_only_program_ex).b_eq = none) := by
  have h := solve_problem_optional_arrays eq_only_program_ex (by decide)
  refine ⟨(h.1.mpr (by decide)).1, (h.1.mpr (by decide)).2, fun hc => ?_⟩
  exact h.2.mp hc eq_con_ex (by decide) rfl

theorem fill_list_exact {α : Type} (base new : List α) (h : new.length = base.length) :
    fill_list base new = Except.ok new := by
  unfold fill_list
  rw [if_pos (le_of_eq h), h, List.drop_length, List.append_nil]

theorem load_row_exact (nv : Nat) (r : EntryRow) (hr : r.coeffs.length = nv) :
    load_row (default_row nv) r = Except.ok r := by
  have hlen : r.coeffs.length = (List.replicate nv ("1")).length := by simp [hr]
  unfold load_row
  simp only [default_row]
  rw [fill_list_exact _ _ hlen]

theorem load_rows_exact (nv : Nat) (rs : List EntryRow)
    (h : ∀ r ∈ rs, r.coeffs.length = nv) :
    load_rows (List.replicate rs.length (default_row nv)) rs = Except.ok rs := by
  induction rs with
  | nil => rfl
  | cons r rt ih =>
    have hr : r.coeffs.length = nv := h r (List.mem_cons_self r rt)
    rw [List.length_cons, List.replicate_succ]
    simp only [load_rows, load_row_exact nv r hr]
    rw [ih (fun x hx => h x (List.mem_cons_of_mem r hx))]

/-- C2: saving a well-formed entry-form problem (entry lists matching the
declared dimensions, as the GUI maintains) and loading the resulting
document reproduces the same problem exactly — same dimensions, same
sense, same objective coefficients, same constraints in order — whatever
state the load starts from. -/
theorem save_load_roundtrip (s0 s : ProblemState)
    (hobj : s.obj_entries.length = s.num_variables)
    (hrows : s.rows.length = s.num_constraints)
    (hcoeffs : ∀ r ∈ s.rows, r.coeffs.length = s.num_variables) :
    load_problem s0 (save_problem s) = Except.ok s := by
  obtain ⟨nv, nc, ot, oe, rs⟩ := s
  simp only at hobj hrows hcoeffs
  subst hobj
  subst hrows
  have h1 : fill_list (List.replicate oe.length ("1")) oe = Except.ok oe :=
    fill_list_exact _ _ (by simp)
  have h2 : load_rows (List.replicate rs.length (default_row oe.length)) rs = Except.ok rs :=
    load_rows_exact oe.length rs hcoeffs
  simp only [load_problem, save_problem, List.take_length, h1, h2]

/-- Witness for C2: a concrete two-variable, two-constraint maximization
problem survives the save/load round trip starting from an unrelated
state. -/
theorem save_load_roundtrip_witness :
    load_problem state0_ex (save_problem state_ex) = Except.ok state_ex :=
  save_load_roundtrip state0_ex state_ex rfl rfl (by decide)

/-- C8 counterexample: loading a structurally complete document whose
dimensions are inconsistent (it declares one variable but carries two
objective coefficient strings) raises an index error, yet the program
state at the exception — which the `except` handler keeps, showing only a
message box — is not the pre-load state: the dimensions, sense and the
copied coefficient prefix from the malformed file have already replaced
it.  The file was partially loaded. -/
theorem load_problem_mutated_state_cex :
    load_problem state0_ex bad_data = Except.error
      { num_variables := 1
        num_constraints := 0
        objective_type := "minimize"
        obj_entries := ["7"]
        rows := ([] : List EntryRow) } ∧
    ({ num_variables := 1
       num_constraints := 0
       objective_type := "minimize"
       obj_entries := ["7"]
       rows := ([] : List EntryRow) } : ProblemState) ≠ state0_ex := by
  exact ⟨rfl, by decide⟩

/-- C8 amended: a document that fails to parse is rejected before any
mutation, but a parseable document with inconsistent dimensions is not
atomically rejected.  Whenever the stored objective list is longer than
the declared variable count, the load errors — and the state it leaves
behind already carries the document's dimensions and sense, the copied
objective prefix, and freshly created default constraint rows, regardless
of what the state was before the load. -/
theorem load_problem_long_objective_mutation (s : ProblemState) (d : ProblemData)
    (h : d.num_variables < d.objective_coeffs.length) :
    load_problem s d = Except.error
      { num_variables := d.num_variables
        num_constraints := d.num_constraints
        objective_type := d.objective_type
        obj_entries := d.objective_coeffs.take d.num_variables
        rows := List.replicate d.num_constraints (default_row d.num_variables) } := by
  have hfill : fill_list (List.replicate d.num_variables ("1")) d.objective_coeffs =
      Except.error (d.objective_coeffs.take d.num_variables) := by
    unfold fill_list
    rw [List.length_replicate, if_neg (not_le.mpr h)]
  simp only [load_problem, hfill]

/-- Witness for the amended C8 at the concrete malformed document. -/
theorem load_problem_long_objective_mutation_witness :
    load_problem state0_ex bad_data = Except.error
      { num_variables := 1
        num_constraints := 0
        objective_type := "minimize"
        obj_entries := ["7"]
        rows := ([] : List EntryRow) } := by
  have h := load_problem_long_objective_mutation state0_ex bad_data (by decide)
  exact h.trans (congrArg Except.error (by decide))
